import Mathlib

/-!
Verification of the EduAssess online-assessment backend.

This development is a shallow embedding of the controller logic of the
backend (exam creation/update/deletion, enrollment, exam start, exam
submission and grading, password reset, OTP issuance, bulk question
addition) together with theorems settling the specified behavioral
claims.

Modelling conventions:
- Mongo ObjectIds are modelled as `String` (the code always compares them
  via `toString()` string equality).
- Dates are modelled as `Int` millisecond timestamps; JS `Date`
  comparisons coerce to this number.
- JS numeric division is modelled over `Rat`; where the code can divide
  by zero (an `Infinity`/`NaN` in JS, making every `>=` comparison
  false), the embedding makes that case explicit instead of using the
  Lean convention `x / 0 = 0`.
- A controller is a pure function from its inputs and the relevant
  database state to a response value (and the updated state when it
  writes).
-/

namespace EduAssess

/-- A persisted Question document (models/question schema), as seen by the
controllers after population: id, text, type, options, correctAnswer,
marks. -/
structure Question where
  id : String
  text : String
  qtype : String
  options : List String
  correctAnswer : String
  marks : Int
  deriving Repr, DecidableEq

/-- A persisted Exam document (models/exam schema), with its questions
already populated (as `submitExam` and `startExam` load them). -/
structure Exam where
  id : String
  title : String
  description : String
  duration : Int
  startTime : Int
  endTime : Int
  questions : List Question
  totalMarks : Int
  passingMarks : Int
  isActive : Bool
  createdBy : String
  deriving Repr, DecidableEq

/-- A persisted User document (models/user schema): the fields the claims
touch. `enrolledExams` is the list of exam ids; `completedExams` pairs an
exam id with a result id. -/
structure User where
  id : String
  name : String
  email : String
  password : String
  role : String
  enrolledExams : List String
  completedExams : List (String × String)
  resetToken : Option String
  resetTokenExpiration : Option Int
  deriving Repr, DecidableEq

/-- One submitted answer in the body of POST /api/result. -/
structure Answer where
  question : String
  selectedOption : String
  deriving Repr, DecidableEq

/-- One graded answer as stored on a Result document. -/
structure GradedAnswer where
  question : String
  selectedOption : String
  isCorrect : Bool
  deriving Repr, DecidableEq

/-- A persisted Result document (models/result schema), restricted to the
fields `submitExam` computes. -/
structure ResultRec where
  exam : String
  student : String
  answers : List GradedAnswer
  totalScore : Int
  percentage : Rat
  isPassed : Bool
  deriving Repr, DecidableEq

/-! ## submitExam (resultController.js) -/

/-- Accumulator of the scoring loop of `submitExam`:
`answerWithCorrectness`, `totalScore` and `totalMarks` built over the
submitted answers. -/
structure Grading where
  answerWithCorrectness : List GradedAnswer
  totalScore : Int
  totalMarks : Int
  deriving Repr, DecidableEq

/-- The scoring loop of `submitExam` (resultController.js lines 54-70):
for each submitted answer, find the exam question whose id matches; when
found, record the answer with `isCorrect` given by strict string equality
of `correctAnswer` and `selectedOption`, add the question marks to
`totalScore` when correct, and always add them to `totalMarks`; answers
matching no question are skipped entirely. -/
def gradeAnswers (qs : List Question) : List Answer → Grading
  | [] => { answerWithCorrectness := [], totalScore := 0, totalMarks := 0 }
  | a :: rest =>
    let g := gradeAnswers qs rest
    match qs.find? (fun q => q.id == a.question) with
    | some q =>
      let isCorrect := q.correctAnswer == a.selectedOption
      { answerWithCorrectness :=
          { question := a.question, selectedOption := a.selectedOption,
            isCorrect := isCorrect } :: g.answerWithCorrectness,
        totalScore := (if isCorrect then q.marks else 0) + g.totalScore,
        totalMarks := q.marks + g.totalMarks }
    | none => g

/-- Response of `submitExam`, restricted to the outcomes reachable once
the request body is well-formed. -/
inductive SubmitResponse where
  | examNotFound404
  | noValidQuestions400
  | created201 (r : ResultRec)
  deriving Repr, DecidableEq

/-- submitExam (resultController.js lines 23-134): load the exam, grade
the answers, reject with 400 when the accumulated `totalMarks` is zero,
otherwise compute `percentage = (totalScore / totalMarks) * 100` and
`isPassed = percentage >= (passingMarks / exam.totalMarks) * 100` and
persist the Result. In JS, when `exam.totalMarks` is 0 the threshold
`(passingMarks / 0) * 100` is `+Infinity` for a positive passingMarks,
`NaN` for a zero one, and `-Infinity` for a negative one, so the
comparison is false in the first two cases and true in the third; the
embedding spells those cases out. -/
def submitExam (exams : List Exam) (studentId examId : String)
    (answers : List Answer) : SubmitResponse :=
  match exams.find? (fun e => e.id == examId) with
  | none => .examNotFound404
  | some examData =>
    let g := gradeAnswers examData.questions answers
    if g.totalMarks = 0 then .noValidQuestions400
    else
      let percentage : Rat := (g.totalScore : Rat) / (g.totalMarks : Rat) * 100
      let isPassed : Bool :=
        if examData.totalMarks = 0 then decide (examData.passingMarks < 0)
        else decide (percentage ≥
          (examData.passingMarks : Rat) / (examData.totalMarks : Rat) * 100)
      .created201
        { exam := examId, student := studentId,
          answers := g.answerWithCorrectness, totalScore := g.totalScore,
          percentage := percentage, isPassed := isPassed }

/-- The answers of a submission that match a question of the exam, paired
with the matched question (specification-side reformulation of the loop,
used to state the grading claims). -/
def matchedAnswers (qs : List Question) (answers : List Answer) :
    List (Answer × Question) :=
  answers.filterMap fun a =>
    (qs.find? (fun q => q.id == a.question)).map (fun q => (a, q))

/-- Sum of the marks of the correctly answered matched questions. -/
def correctMarksSum (qs : List Question) (answers : List Answer) : Int :=
  (((matchedAnswers qs answers).filter
      (fun p => p.2.correctAnswer == p.1.selectedOption)).map
    (fun p => p.2.marks)).sum

/-- Sum of the marks of all matched questions of a submission. -/
def matchedMarksSum (qs : List Question) (answers : List Answer) : Int :=
  ((matchedAnswers qs answers).map (fun p => p.2.marks)).sum

/-- Removal of surrounding whitespace from a string, written over the
character list (extensionally the standard trim). -/
def specTrim (s : String) : String :=
  String.mk (((s.data.dropWhile Char.isWhitespace).reverse.dropWhile
    Char.isWhitespace).reverse)

/-- Comparison after the normalization the specification describes for
answer grading: both strings trimmed of surrounding whitespace (Unicode
normalization is the identity on the ASCII strings involved here). This
definition follows the words of the specification, not the code, and is
compared against the code in the claim about grading. -/
def specNormalizedEq (a b : String) : Bool := specTrim a == specTrim b

/-- Sample question worth 2 marks, correct answer "A". -/
def sampleQ1 : Question :=
  { id := "q1", text := "t1", qtype := "multiple-choice",
    options := ["A", "B"], correctAnswer := "A", marks := 2 }

/-- Sample question worth 3 marks, correct answer "B". -/
def sampleQ2 : Question :=
  { id := "q2", text := "t2", qtype := "multiple-choice",
    options := ["A", "B"], correctAnswer := "B", marks := 3 }

/-- Sample question worth 5 marks, correct answer "C". -/
def sampleQ3 : Question :=
  { id := "q3", text := "t3", qtype := "multiple-choice",
    options := ["C", "D"], correctAnswer := "C", marks := 5 }

/-- Sample exam with three questions worth 2, 3 and 5 marks,
totalMarks 10 and passingMarks 5. -/
def sampleExam : Exam :=
  { id := "e1", title := "T", description := "D", duration := 60,
    startTime := 0, endTime := 1000, questions := [sampleQ1, sampleQ2, sampleQ3],
    totalMarks := 10, passingMarks := 5, isActive := true,
    createdBy := "admin1" }

/-- Sample one-question exam whose question has correct answer "A". -/
def sampleExam2 : Exam :=
  { id := "e2", title := "T2", description := "D2", duration := 60,
    startTime := 0, endTime := 1000,
    questions := [{ id := "q4", text := "t4", qtype := "short-answer",
                    options := [], correctAnswer := "A", marks := 1 }],
    totalMarks := 1, passingMarks := 1, isActive := true,
    createdBy := "admin1" }

/-! ## Lemmas about the scoring loop -/

theorem gradeAnswers_totalScore (qs : List Question) (ans : List Answer) :
    (gradeAnswers qs ans).totalScore = correctMarksSum qs ans := by
  induction ans with
  | nil => rfl
  | cons a rest ih =>
    cases h : qs.find? (fun q => q.id == a.question) with
    | none =>
      simp [gradeAnswers, h, correctMarksSum, matchedAnswers,
        List.filterMap_cons] at ih ⊢
      exact ih
    | some q =>
      cases hc : (q.correctAnswer == a.selectedOption) <;>
        simp [gradeAnswers, h, hc, correctMarksSum, matchedAnswers,
          List.filterMap_cons, List.filter_cons] at ih ⊢ <;>
        omega

theorem gradeAnswers_totalMarks (qs : List Question) (ans : List Answer) :
    (gradeAnswers qs ans).totalMarks = matchedMarksSum qs ans := by
  induction ans with
  | nil => rfl
  | cons a rest ih =>
    cases h : qs.find? (fun q => q.id == a.question) with
    | none =>
      simp [gradeAnswers, h, matchedMarksSum, matchedAnswers,
        List.filterMap_cons] at ih ⊢
      exact ih
    | some q =>
      cases hc : (q.correctAnswer == a.selectedOption) <;>
        simp [gradeAnswers, h, hc, matchedMarksSum, matchedAnswers,
          List.filterMap_cons] at ih ⊢ <;>
        omega

theorem gradeAnswers_answers (qs : List Question) (ans : List Answer) :
    (gradeAnswers qs ans).answerWithCorrectness =
      (matchedAnswers qs ans).map fun p =>
        { question := p.1.question, selectedOption := p.1.selectedOption,
          isCorrect := p.2.correctAnswer == p.1.selectedOption } := by
  induction ans with
  | nil => rfl
  | cons a rest ih =>
    cases h : qs.find? (fun q => q.id == a.question) with
    | none =>
      simpa [gradeAnswers, h, matchedAnswers, List.filterMap_cons] using ih
    | some q =>
      simpa [gradeAnswers, h, matchedAnswers, List.filterMap_cons] using ih

theorem gradeAnswers_of_no_match (qs : List Question) (ans : List Answer)
    (h : ∀ a ∈ ans, ∀ q ∈ qs, q.id ≠ a.question) :
    gradeAnswers qs ans = { answerWithCorrectness := [], totalScore := 0,
                            totalMarks := 0 } := by
  induction ans with
  | nil => rfl
  | cons a rest ih =>
    have hfind : qs.find? (fun q => q.id == a.question) = none := by
      simp only [List.find?_eq_none]
      intro q hq
      simpa using h a (by simp) q hq
    simp only [gradeAnswers, hfind]
    exact ih fun a ha q hq => h a (by simp [ha]) q hq

/-- Result record produced by submitting only question q1 (correctly) to
the sample exam. -/
def sampleResult1 : ResultRec :=
  { exam := "e1", student := "s1",
    answers := [{ question := "q1", selectedOption := "A", isCorrect := true }],
    totalScore := 2, percentage := 100, isPassed := true }

/-! ## Claim C1 -/

/-- C1 counterexample: submitting a single correct 2-mark answer to the
sample exam (exam totalMarks 10) yields percentage 100, not
(totalScore / exam.totalMarks) x 100 = 20: the code divides by the summed
marks of the matched answered questions, not by the exam totalMarks
field. -/
theorem submitExam_percentage_denominator_cex :
    submitExam [sampleExam] "s1" "e1" [⟨"q1", "A"⟩] =
      .created201 sampleResult1 ∧
    sampleResult1.totalScore = 2 ∧ sampleExam.totalMarks = 10 ∧
    sampleResult1.percentage ≠
      (sampleResult1.totalScore : Rat) / (sampleExam.totalMarks : Rat) * 100 :=
  ⟨by norm_num [submitExam, sampleExam, sampleResult1, sampleQ1, sampleQ2,
      sampleQ3, gradeAnswers],
   by decide, by decide, by norm_num [sampleResult1, sampleExam]⟩

/-- C1 (amended): for every accepted submission, totalScore is the summed
marks of the correctly answered matched questions, percentage is
totalScore divided by the summed marks of all matched questions (not the
exam totalMarks field) times 100, a submission whose matched-marks sum is
zero is rejected before this point, and isPassed holds exactly when
either the exam totalMarks field is nonzero and percentage reaches
(passingMarks / totalMarks) x 100, or the exam totalMarks field is zero
and passingMarks is negative (in JS a zero totalMarks makes the
threshold +Infinity, NaN or -Infinity as passingMarks is positive, zero
or negative, so the comparison holds exactly in the negative case). -/
theorem submitExam_scoring_correct
    (exams : List Exam) (sid eid : String) (ans : List Answer)
    (e : Exam) (r : ResultRec)
    (hfind : exams.find? (fun x => x.id == eid) = some e)
    (hsub : submitExam exams sid eid ans = .created201 r) :
    r.totalScore = correctMarksSum e.questions ans ∧
    matchedMarksSum e.questions ans ≠ 0 ∧
    r.percentage = (correctMarksSum e.questions ans : Rat) /
        (matchedMarksSum e.questions ans : Rat) * 100 ∧
    (r.isPassed = true ↔
      (e.totalMarks = 0 ∧ e.passingMarks < 0) ∨
      (e.totalMarks ≠ 0 ∧
        r.percentage ≥ (e.passingMarks : Rat) / (e.totalMarks : Rat) * 100)) := by
  simp only [submitExam, hfind] at hsub
  by_cases h0 : (gradeAnswers e.questions ans).totalMarks = 0
  · rw [if_pos h0] at hsub
    exact absurd hsub (by simp)
  · rw [if_neg h0] at hsub
    injection hsub with hr
    subst hr
    refine ⟨gradeAnswers_totalScore e.questions ans, ?_, ?_, ?_⟩
    · rw [← gradeAnswers_totalMarks]; exact h0
    · simp [gradeAnswers_totalScore, gradeAnswers_totalMarks]
    · by_cases ht : e.totalMarks = 0 <;> simp [ht]

/-- C1 witness: the amended theorem applied to the sample submission. -/
theorem submitExam_scoring_correct_witness :
    [sampleExam].find? (fun x => x.id == "e1") = some sampleExam ∧
    submitExam [sampleExam] "s1" "e1" [⟨"q1", "A"⟩] =
      .created201 sampleResult1 ∧
    (sampleResult1.totalScore = correctMarksSum sampleExam.questions [⟨"q1", "A"⟩] ∧
     matchedMarksSum sampleExam.questions [⟨"q1", "A"⟩] ≠ 0 ∧
     sampleResult1.percentage =
       (correctMarksSum sampleExam.questions [⟨"q1", "A"⟩] : Rat) /
         (matchedMarksSum sampleExam.questions [⟨"q1", "A"⟩] : Rat) * 100 ∧
     (sampleResult1.isPassed = true ↔
       (sampleExam.totalMarks = 0 ∧ sampleExam.passingMarks < 0) ∨
       (sampleExam.totalMarks ≠ 0 ∧
         sampleResult1.percentage ≥
           (sampleExam.passingMarks : Rat) /
             (sampleExam.totalMarks : Rat) * 100))) :=
  ⟨by decide,
   by norm_num [submitExam, sampleExam, sampleResult1, sampleQ1, sampleQ2,
      sampleQ3, gradeAnswers],
   submitExam_scoring_correct [sampleExam] "s1" "e1" [⟨"q1", "A"⟩]
     sampleExam sampleResult1 (by decide)
     (by norm_num [submitExam, sampleExam, sampleResult1, sampleQ1, sampleQ2,
        sampleQ3, gradeAnswers])⟩

/-! ## Claim C2 -/

/-- C2 counterexample: a submitted option that differs from the correct
answer only by a trailing space grades as incorrect, although the
normalized comparison the claim describes would grade it as equal: the
code compares with plain string equality and performs no trimming or
normalization. -/
theorem submitExam_no_normalization_cex :
    submitExam [sampleExam2] "s1" "e2" [⟨"q4", "A "⟩] = .created201
      { exam := "e2", student := "s1",
        answers := [{ question := "q4", selectedOption := "A ",
                      isCorrect := false }],
        totalScore := 0, percentage := 0, isPassed := false } ∧
    specNormalizedEq "A" "A " = true :=
  ⟨by norm_num [submitExam, sampleExam2, gradeAnswers]; decide, by decide⟩

/-- C2 (amended): for every accepted submission, the stored answers are
exactly the matched answers, each with isCorrect computed by plain
(unnormalized) string equality of the question correctAnswer and the
submitted selectedOption. -/
theorem submitExam_isCorrect_strict_equality
    (exams : List Exam) (sid eid : String) (ans : List Answer)
    (e : Exam) (r : ResultRec)
    (hfind : exams.find? (fun x => x.id == eid) = some e)
    (hsub : submitExam exams sid eid ans = .created201 r) :
    r.answers = (matchedAnswers e.questions ans).map fun p =>
      { question := p.1.question, selectedOption := p.1.selectedOption,
        isCorrect := p.2.correctAnswer == p.1.selectedOption } := by
  simp only [submitExam, hfind] at hsub
  by_cases h0 : (gradeAnswers e.questions ans).totalMarks = 0
  · rw [if_pos h0] at hsub
    exact absurd hsub (by simp)
  · rw [if_neg h0] at hsub
    injection hsub with hr
    subst hr
    exact gradeAnswers_answers e.questions ans

/-- C2 witness: the amended theorem applied to the whitespace sample
submission. -/
theorem submitExam_isCorrect_strict_equality_witness :
    [sampleExam2].find? (fun x => x.id == "e2") = some sampleExam2 ∧
    submitExam [sampleExam2] "s1" "e2" [⟨"q4", "A "⟩] = .created201
      { exam := "e2", student := "s1",
        answers := [{ question := "q4", selectedOption := "A ",
                      isCorrect := false }],
        totalScore := 0, percentage := 0, isPassed := false } ∧
    ({ exam := "e2", student := "s1",
       answers := [{ question := "q4", selectedOption := "A ",
                     isCorrect := false }],
       totalScore := 0, percentage := 0, isPassed := false : ResultRec }).answers =
      (matchedAnswers sampleExam2.questions [⟨"q4", "A "⟩]).map fun p =>
        { question := p.1.question, selectedOption := p.1.selectedOption,
          isCorrect := p.2.correctAnswer == p.1.selectedOption } :=
  ⟨by decide,
   by norm_num [submitExam, sampleExam2, gradeAnswers]; decide,
   submitExam_isCorrect_strict_equality [sampleExam2] "s1" "e2" [⟨"q4", "A "⟩]
     sampleExam2 _ (by decide)
     (by norm_num [submitExam, sampleExam2, gradeAnswers]; decide)⟩

/-! ## Claim C10 -/

/-- C10: a submitted answer matching no question of the exam is silently
dropped (it changes neither the stored answer list nor totalScore nor the
marks total), and a submission in which no answer matches any exam
question is rejected with the 400 no-valid-questions response instead of
creating a Result. -/
theorem submitExam_ignores_unmatched_answers :
    (∀ (qs : List Question) (l1 l2 : List Answer) (a : Answer),
        (∀ q ∈ qs, q.id ≠ a.question) →
        gradeAnswers qs (l1 ++ a :: l2) = gradeAnswers qs (l1 ++ l2)) ∧
    (∀ (exams : List Exam) (sid eid : String) (ans : List Answer) (e : Exam),
        exams.find? (fun x => x.id == eid) = some e →
        (∀ a ∈ ans, ∀ q ∈ e.questions, q.id ≠ a.question) →
        submitExam exams sid eid ans = .noValidQuestions400) := by
  constructor
  · intro qs l1 l2 a ha
    have hfind : qs.find? (fun q => q.id == a.question) = none := by
      simp only [List.find?_eq_none]
      intro q hq
      simpa using ha q hq
    induction l1 with
    | nil => simp [gradeAnswers, hfind]
    | cons b rest ih =>
      simp only [List.cons_append, gradeAnswers, List.append_eq, ih]
  · intro exams sid eid ans e hfind hnone
    simp only [submitExam, hfind]
    rw [gradeAnswers_of_no_match e.questions ans hnone]
    simp

/-- C10 witness: the claim theorem applied to a submission containing an
answer whose question id matches no question of the sample exam, and to a
submission consisting only of such answers. -/
theorem submitExam_ignores_unmatched_answers_witness :
    (∀ q ∈ sampleExam.questions, q.id ≠ "zz") ∧
    gradeAnswers sampleExam.questions [⟨"q1", "A"⟩, ⟨"zz", "X"⟩] =
      gradeAnswers sampleExam.questions [⟨"q1", "A"⟩] ∧
    submitExam [sampleExam] "s1" "e1" [⟨"zz", "X"⟩] = .noValidQuestions400 :=
  ⟨by decide,
   submitExam_ignores_unmatched_answers.1 sampleExam.questions
     [⟨"q1", "A"⟩] [] ⟨"zz", "X"⟩ (by decide),
   submitExam_ignores_unmatched_answers.2 [sampleExam] "s1" "e1"
     [⟨"zz", "X"⟩] sampleExam (by decide) (by decide)⟩

/-! ## createExam and updateExam (examController.js) -/

/-- Body of POST /api/exam/createExam after the declarative validator
(title and description non-empty, numerics numeric, both times present)
has passed: the fields `createExam` destructures. -/
structure CreateExamBody where
  title : String
  description : String
  duration : Int
  startTime : Int
  endTime : Int
  questions : List Question
  totalMarks : Int
  passingMarks : Int
  deriving Repr, DecidableEq

/-- Response of `createExam`. -/
inductive CreateExamResponse where
  | endBeforeStart400
  | created201 (e : Exam)
  deriving Repr, DecidableEq

/-- createExam (examController.js lines 35-114): after validation,
rejects with 400 "End time must be after start time" when
`start >= end`, otherwise persists the new exam with `createdBy` set to
the caller. `newId` stands for the fresh ObjectId the store assigns. -/
def createExam (body : CreateExamBody) (userId newId : String) :
    CreateExamResponse :=
  if body.startTime ≥ body.endTime then .endBeforeStart400
  else .created201
    { id := newId, title := body.title, description := body.description,
      duration := body.duration, startTime := body.startTime,
      endTime := body.endTime, questions := body.questions,
      totalMarks := body.totalMarks, passingMarks := body.passingMarks,
      isActive := true, createdBy := userId }

/-- Body of PUT /api/exam/:id — every field optional; `updateExam` copies
each supplied field into `updateFields`, coercing the two time fields to
dates. -/
structure UpdateExamBody where
  title : Option String
  description : Option String
  duration : Option Int
  startTime : Option Int
  endTime : Option Int
  totalMarks : Option Int
  passingMarks : Option Int
  isActive : Option Bool
  deriving Repr, DecidableEq

/-- Response of `updateExam`. -/
inductive UpdateExamResponse where
  | notFound404
  | endBeforeStart400
  | updated200 (e : Exam)
  deriving Repr, DecidableEq

/-- The `$set` of the collected `updateFields` on a stored exam. -/
def applyExamUpdate (e : Exam) (b : UpdateExamBody) : Exam :=
  { e with
    title := b.title.getD e.title,
    description := b.description.getD e.description,
    duration := b.duration.getD e.duration,
    startTime := b.startTime.getD e.startTime,
    endTime := b.endTime.getD e.endTime,
    totalMarks := b.totalMarks.getD e.totalMarks,
    passingMarks := b.passingMarks.getD e.passingMarks,
    isActive := b.isActive.getD e.isActive }

/-- updateExam (examController.js lines 335-409): 404 when the exam id
resolves to nothing; when either time boundary is supplied (a JS Date
object is always truthy), the supplied boundary — falling back to the
stored one for the other side — must satisfy `start < end`, otherwise
400; then the supplied fields are `$set` on the document. -/
def updateExam (exams : List Exam) (examId : String) (body : UpdateExamBody) :
    UpdateExamResponse :=
  match exams.find? (fun e => e.id == examId) with
  | none => .notFound404
  | some exam =>
    if body.startTime.isSome || body.endTime.isSome then
      let start := body.startTime.getD exam.startTime
      let endT := body.endTime.getD exam.endTime
      if start ≥ endT then .endBeforeStart400
      else .updated200 (applyExamUpdate exam body)
    else .updated200 (applyExamUpdate exam body)

/-! ## Claim C3 -/

/-- C3: exam creation rejects endTime less than or equal to startTime and
accepts endTime after startTime, every exam createExam persists satisfies
startTime < endTime, and updateExam preserves that invariant: an update
touching either boundary is rejected unless the resulting start is
strictly before the resulting end, and an update of a well-formed exam
that succeeds leaves a well-formed exam. -/
theorem exam_time_window_invariant :
    (∀ (body : CreateExamBody) (uid nid : String),
        body.endTime ≤ body.startTime →
        createExam body uid nid = .endBeforeStart400) ∧
    (∀ (body : CreateExamBody) (uid nid : String),
        body.startTime < body.endTime →
        ∃ e, createExam body uid nid = .created201 e ∧
          e.startTime = body.startTime ∧ e.endTime = body.endTime ∧
          e.startTime < e.endTime) ∧
    (∀ (exams : List Exam) (examId : String) (body : UpdateExamBody)
        (exam : Exam),
        exams.find? (fun e => e.id == examId) = some exam →
        (body.startTime.isSome ∨ body.endTime.isSome) →
        body.endTime.getD exam.endTime ≤ body.startTime.getD exam.startTime →
        updateExam exams examId body = .endBeforeStart400) ∧
    (∀ (exams : List Exam) (examId : String) (body : UpdateExamBody)
        (exam e : Exam),
        exams.find? (fun x => x.id == examId) = some exam →
        exam.startTime < exam.endTime →
        updateExam exams examId body = .updated200 e →
        e.startTime < e.endTime) := by
  refine ⟨?_, ?_, ?_, ?_⟩
  · intro body uid nid h
    simp only [createExam, if_pos (by omega : body.startTime ≥ body.endTime)]
  · intro body uid nid h
    simp only [createExam, if_neg (by omega : ¬ body.startTime ≥ body.endTime)]
    exact ⟨_, rfl, rfl, rfl, h⟩
  · intro exams examId body exam hfind hsome hle
    simp only [updateExam, hfind]
    have hc : (body.startTime.isSome || body.endTime.isSome) = true := by
      rcases hsome with h | h <;> simp [h]
    rw [if_pos hc, if_pos hle]
  · intro exams examId body exam e hfind hwf hupd
    simp only [updateExam, hfind] at hupd
    by_cases hsome : (body.startTime.isSome || body.endTime.isSome) = true
    · rw [if_pos hsome] at hupd
      by_cases hge : body.startTime.getD exam.startTime ≥
          body.endTime.getD exam.endTime
      · rw [if_pos hge] at hupd
        exact absurd hupd (by simp)
      · rw [if_neg hge] at hupd
        injection hupd with he
        subst he
        simp only [applyExamUpdate]
        exact lt_of_not_ge hge
    · rw [if_neg hsome] at hupd
      injection hupd with he
      subst he
      obtain ⟨h1, h2⟩ : ¬ body.startTime.isSome = true ∧
          ¬ body.endTime.isSome = true := by
        constructor <;> intro hx <;> exact hsome (by simp [hx])
      rw [Option.not_isSome_iff_eq_none] at h1 h2
      simpa [applyExamUpdate, h1, h2] using hwf

/-- C3 witness: the four parts applied to concrete payloads: a creation
with endTime equal to startTime (rejected), a creation with a later
endTime (accepted), an update moving endTime before the stored startTime
(rejected), and a successful update of the sample exam. -/
theorem exam_time_window_invariant_witness :
    createExam ⟨"T", "D", 60, 5, 5, [], 10, 5⟩ "admin1" "e9" =
      .endBeforeStart400 ∧
    (∃ e, createExam ⟨"T", "D", 60, 0, 9, [], 10, 5⟩ "admin1" "e9" =
      .created201 e ∧ e.startTime = 0 ∧ e.endTime = 9 ∧
      e.startTime < e.endTime) ∧
    updateExam [sampleExam] "e1"
      ⟨none, none, none, none, some (-5), none, none, none⟩ =
      .endBeforeStart400 ∧
    ∀ e, updateExam [sampleExam] "e1"
        ⟨none, none, none, some 1, some 7, none, none, none⟩ =
        .updated200 e → e.startTime < e.endTime :=
  ⟨exam_time_window_invariant.1 ⟨"T", "D", 60, 5, 5, [], 10, 5⟩ "admin1" "e9"
     (by decide),
   exam_time_window_invariant.2.1 ⟨"T", "D", 60, 0, 9, [], 10, 5⟩ "admin1" "e9"
     (by decide),
   exam_time_window_invariant.2.2.1 [sampleExam] "e1"
     ⟨none, none, none, none, some (-5), none, none, none⟩ sampleExam
     (by decide) (by decide) (by decide),
   fun e h => exam_time_window_invariant.2.2.2 [sampleExam] "e1"
     ⟨none, none, none, some 1, some 7, none, none, none⟩ sampleExam e
     (by decide) (by decide) h⟩

/-! ## enrollInExam and deleteExam (examController.js) -/

/-- Response of `enrollInExam` (the ids handled here are structurally
valid, so the invalid-ObjectId 400 branch is not reachable in the
model). -/
inductive EnrollResponse where
  | notFound404
  | notActive400
  | periodEnded400
  | alreadyEnrolled200
  | enrolled200 (exam : Exam) (user : User)
  deriving Repr, DecidableEq

/-- enrollInExam (examController.js lines 482-603): 404 when the exam id
resolves to nothing, 400 when the exam is inactive or `now` is past its
endTime, an idempotent 200 already-enrolled response when the exam id is
already in the caller's enrolledExams, and otherwise the exam id is
appended to the caller's enrolledExams and saved (the best-effort
enrollment email does not affect the state or the response). Returns the
response together with the stored user document after the call. -/
def enrollInExam (exams : List Exam) (user : User) (examId : String)
    (now : Int) : EnrollResponse × User :=
  match exams.find? (fun e => e.id == examId) with
  | none => (.notFound404, user)
  | some exam =>
    if exam.isActive = false then (.notActive400, user)
    else if now > exam.endTime then (.periodEnded400, user)
    else if examId ∈ user.enrolledExams then (.alreadyEnrolled200, user)
    else
      let u2 := { user with enrolledExams := user.enrolledExams ++ [examId] }
      (.enrolled200 exam u2, u2)

/-- Response of `deleteExam`. -/
inductive DeleteExamResponse where
  | notFound404
  | deleted200 (removedExam : Exam)
  deriving Repr, DecidableEq

/-- deleteExam (examController.js lines 420-469): 404 when the exam id
resolves to nothing; otherwise every user document has the exam id pulled
out of its enrolledExams list (User.updateMany with a pull), the exam
document is removed, and the removed exam is returned. Returns the
response with the exam and user collections after the call. -/
def deleteExam (exams : List Exam) (users : List User) (examId : String) :
    DeleteExamResponse × List Exam × List User :=
  match exams.find? (fun e => e.id == examId) with
  | none => (.notFound404, exams, users)
  | some exam =>
    let users2 := users.map fun u =>
      { u with enrolledExams := u.enrolledExams.filter (fun x => x ≠ examId) }
    let exams2 := exams.filter (fun e => e.id ≠ exam.id)
    (.deleted200 exam, exams2, users2)

/-- Sample student enrolled in the sample exam. -/
def sampleStudent : User :=
  { id := "s1", name := "S", email := "s@example.com",
    password := "hashedpwd", role := "student",
    enrolledExams := ["e1"], completedExams := [],
    resetToken := none, resetTokenExpiration := none }

/-- Sample student not enrolled in any exam. -/
def sampleStudent2 : User :=
  { id := "s2", name := "S2", email := "s2@example.com",
    password := "hashedpwd2", role := "student",
    enrolledExams := [], completedExams := [],
    resetToken := none, resetTokenExpiration := none }

/-! ## Claim C4 -/

/-- C4: enrollment is idempotent: when the exam exists, is active and has
not ended at either call, a second enrollment of the same student in the
same exam returns the 200 already-enrolled response (not an error) and
leaves the user unchanged, and the resulting enrolledExams carries at
most one occurrence of the exam id (given at most one beforehand). -/
theorem enrollInExam_idempotent
    (exams : List Exam) (user : User) (examId : String) (now now2 : Int)
    (exam : Exam)
    (hfind : exams.find? (fun e => e.id == examId) = some exam)
    (hactive : exam.isActive = true)
    (h1 : ¬ now > exam.endTime) (h2 : ¬ now2 > exam.endTime)
    (hcount : user.enrolledExams.count examId ≤ 1) :
    enrollInExam exams (enrollInExam exams user examId now).2 examId now2 =
      (.alreadyEnrolled200, (enrollInExam exams user examId now).2) ∧
    ((enrollInExam exams user examId now).2).enrolledExams.count examId ≤ 1 := by
  by_cases hmem : examId ∈ user.enrolledExams
  · simp [enrollInExam, hfind, hactive, h1, h2, hmem, hcount]
  · constructor
    · simp [enrollInExam, hfind, hactive, h1, h2, hmem]
    · simp only [enrollInExam, hfind]
      rw [if_neg (by simp [hactive]), if_neg h1, if_neg (by simpa using hmem)]
      simp [List.count_append, List.count_eq_zero_of_not_mem hmem]

/-- C4 witness: the idempotence theorem applied to the sample student not
yet enrolled in the sample exam. -/
theorem enrollInExam_idempotent_witness :
    [sampleExam].find? (fun e => e.id == "e1") = some sampleExam ∧
    sampleExam.isActive = true ∧
    ¬ (5 : Int) > sampleExam.endTime ∧ ¬ (6 : Int) > sampleExam.endTime ∧
    sampleStudent2.enrolledExams.count "e1" ≤ 1 ∧
    (enrollInExam [sampleExam]
        (enrollInExam [sampleExam] sampleStudent2 "e1" 5).2 "e1" 6 =
      (.alreadyEnrolled200, (enrollInExam [sampleExam] sampleStudent2 "e1" 5).2) ∧
     ((enrollInExam [sampleExam] sampleStudent2 "e1" 5).2).enrolledExams.count
       "e1" ≤ 1) :=
  ⟨by decide, by decide, by decide, by decide, by decide,
   enrollInExam_idempotent [sampleExam] sampleStudent2 "e1" 5 6 sampleExam
     (by decide) (by decide) (by decide) (by decide) (by decide)⟩

/-! ## Claim C6 -/

/-- C6: exam deletion cascades: when the exam is found and deleted, no
user in the resulting user collection still carries the deleted exam id
in enrolledExams. -/
theorem deleteExam_cascades_enrolledExams
    (exams : List Exam) (users : List User) (examId : String) (exam : Exam)
    (h : (deleteExam exams users examId).1 = .deleted200 exam) :
    ∀ u ∈ (deleteExam exams users examId).2.2, examId ∉ u.enrolledExams := by
  intro u hu
  cases hfind : exams.find? (fun e => e.id == examId) with
  | none => simp [deleteExam, hfind] at h
  | some ex =>
    simp only [deleteExam, hfind, List.mem_map] at hu
    obtain ⟨u0, _, rfl⟩ := hu
    simp

/-- C6 witness: deleting the sample exam removes the id from the enrolled
sample student. -/
theorem deleteExam_cascades_enrolledExams_witness :
    (deleteExam [sampleExam] [sampleStudent] "e1").1 =
      .deleted200 sampleExam ∧
    ∀ u ∈ (deleteExam [sampleExam] [sampleStudent] "e1").2.2,
      "e1" ∉ u.enrolledExams :=
  ⟨by decide,
   deleteExam_cascades_enrolledExams [sampleExam] [sampleStudent] "e1"
     sampleExam (by decide)⟩

/-! ## resetPassword (authController.js) -/

/-- The password strength rule of resetPassword: at least 8 characters
and, per the regex, at least one ASCII letter, one digit and one special
character from the set of the regex character class. -/
def passwordStrengthOk (p : String) : Bool :=
  p.data.any (fun c => c.isAlpha) && p.data.any (fun c => c.isDigit) &&
  p.data.any (fun c => c ∈ ['!', '@', '#', '$', '%', '^', '&', '*'])

/-- Stand-in for the bcrypt hashing the user model applies in its
pre-save hook (an external primitive; the claims never inspect the hash
value, only whether the stored field changed). -/
def bcryptHash (p : String) : String := "bcrypt$" ++ p

/-- The lookup predicate of resetPassword: the stored resetToken equals
the presented token and the stored resetTokenExpiration exists and is
still in the future. -/
def resetTokenMatches (t : String) (now : Int) (u : User) : Bool :=
  u.resetToken == some t &&
  (match u.resetTokenExpiration with
   | some x => now < x
   | none => false)

/-- Response of `resetPassword`. -/
inductive ResetPasswordResponse where
  | tokenRequired403
  | passwordRequired403
  | weakPassword400
  | invalidOrExpired400
  | success200
  deriving Repr, DecidableEq

/-- resetPassword (authController.js lines 284-348): requires a bearer
token and a password, validates the password strength, looks up a user
whose resetToken matches and whose resetTokenExpiration is unexpired,
answers 400 "Invalid or expired token" when none matches, and otherwise
stores the re-hashed password and clears resetToken and
resetTokenExpiration on that user. Returns the response with the user
collection after the call. -/
def resetPassword (users : List User) (token password : Option String)
    (now : Int) : ResetPasswordResponse × List User :=
  match token with
  | none => (.tokenRequired403, users)
  | some t =>
    match password with
    | none => (.passwordRequired403, users)
    | some p =>
      if p.length < 8 ∨ passwordStrengthOk p = false then
        (.weakPassword400, users)
      else
        match users.find? (resetTokenMatches t now) with
        | none => (.invalidOrExpired400, users)
        | some u =>
          (.success200, users.map fun v =>
            if v.id == u.id then
              { v with password := bcryptHash p, resetToken := none,
                       resetTokenExpiration := none }
            else v)

/-! ## Claim C5 -/

/-- C5: a reset token is single-use: when a reset with token t succeeds
for the user the lookup finds (and no other user carries that token), the
found user's resetToken and resetTokenExpiration are cleared, and a
second resetPassword call presenting the same token t answers 400
invalid-or-expired and leaves the stored user collection — in particular
every stored password — unchanged. -/
theorem resetPassword_token_single_use
    (users : List User) (u : User) (t p p2 : String) (now now2 : Int)
    (hfind : users.find? (resetTokenMatches t now) = some u)
    (huniq : ∀ v ∈ users, v.resetToken = some t → v.id = u.id)
    (hp : ¬ (p.length < 8 ∨ passwordStrengthOk p = false))
    (hp2 : ¬ (p2.length < 8 ∨ passwordStrengthOk p2 = false)) :
    (resetPassword users (some t) (some p) now).1 = .success200 ∧
    (∀ v ∈ (resetPassword users (some t) (some p) now).2,
      v.id = u.id → v.resetToken = none ∧ v.resetTokenExpiration = none) ∧
    resetPassword (resetPassword users (some t) (some p) now).2
        (some t) (some p2) now2 =
      (.invalidOrExpired400, (resetPassword users (some t) (some p) now).2) := by
  have hstep : (resetPassword users (some t) (some p) now).2 =
      users.map fun v =>
        if v.id == u.id then
          { v with password := bcryptHash p, resetToken := none,
                   resetTokenExpiration := none }
        else v := by
    simp [resetPassword, hp, hfind]
  have hnone : ((resetPassword users (some t) (some p) now).2).find?
      (resetTokenMatches t now2) = none := by
    rw [hstep, List.find?_eq_none]
    intro v hv
    rw [List.mem_map] at hv
    obtain ⟨v0, hv0, rfl⟩ := hv
    by_cases hid : (v0.id == u.id) = true
    · simp [hid, resetTokenMatches]
    · simp only [hid, if_false, Bool.if_false_right]
      intro hmatch
      rcases Bool.and_eq_true _ _ |>.mp hmatch with ⟨htok, _⟩
      have : v0.resetToken = some t := by simpa using htok
      exact absurd (huniq v0 hv0 this) (by simpa using hid)
  refine ⟨by simp [resetPassword, hp, hfind], ?_, ?_⟩
  · intro v hv hid
    rw [hstep, List.mem_map] at hv
    obtain ⟨v0, hv0, rfl⟩ := hv
    by_cases h0 : (v0.id == u.id) = true
    · simp [h0]
    · rw [if_neg h0] at hid ⊢
      exact absurd hid (by simpa using h0)
  · generalize hU : (resetPassword users (some t) (some p) now).2 = U at hnone ⊢
    simp [resetPassword, hp2, hnone]

/-- Sample user holding an unexpired reset token. -/
def sampleResetUser : User :=
  { id := "s3", name := "S3", email := "s3@example.com",
    password := "oldhash", role := "student",
    enrolledExams := [], completedExams := [],
    resetToken := some "tok123", resetTokenExpiration := some 1000 }

/-- C5 witness: the single-use theorem applied to the sample user with
token tok123 and a strong password. -/
theorem resetPassword_token_single_use_witness :
    [sampleResetUser].find? (resetTokenMatches "tok123" 5) =
      some sampleResetUser ∧
    (∀ v ∈ [sampleResetUser], v.resetToken = some "tok123" →
      v.id = sampleResetUser.id) ∧
    ¬ (("passw0rd!").length < 8 ∨ passwordStrengthOk "passw0rd!" = false) ∧
    ((resetPassword [sampleResetUser] (some "tok123") (some "passw0rd!") 5).1 =
       .success200 ∧
     (∀ v ∈ (resetPassword [sampleResetUser] (some "tok123")
         (some "passw0rd!") 5).2,
       v.id = sampleResetUser.id →
         v.resetToken = none ∧ v.resetTokenExpiration = none) ∧
     resetPassword (resetPassword [sampleResetUser] (some "tok123")
         (some "passw0rd!") 5).2 (some "tok123") (some "passw0rd!") 6 =
       (.invalidOrExpired400,
        (resetPassword [sampleResetUser] (some "tok123")
          (some "passw0rd!") 5).2)) :=
  ⟨by decide, by decide, by decide,
   resetPassword_token_single_use [sampleResetUser] sampleResetUser
     "tok123" "passw0rd!" "passw0rd!" 5 6 (by decide) (by decide)
     (by decide) (by decide)⟩

/-! ## startExam (examController.js) -/

/-- A JSON field value in a projected question payload. -/
inductive FieldVal where
  | str (v : String)
  | num (v : Int)
  | strList (v : List String)
  deriving Repr, DecidableEq

/-- The question payload startExam serves: the populate select string
"text type options marks" projects each question to exactly those paths
(plus the id, which populate always includes); no other question field —
in particular not correctAnswer — appears in the payload. -/
def startExamQuestionPayload (q : Question) : List (String × FieldVal) :=
  [("_id", .str q.id), ("text", .str q.text), ("type", .str q.qtype),
   ("options", .strList q.options), ("marks", .num q.marks)]

/-- The data object of a successful startExam response. -/
structure StartExamData where
  examId : String
  title : String
  duration : Int
  questions : List (List (String × FieldVal))
  startTime : Int
  totalMarks : Int
  alreadyGiven : Bool
  deriving Repr, DecidableEq

/-- Response of `startExam`. -/
inductive StartExamResponse where
  | notFound404
  | notActiveOrEnded400
  | notEnrolled403
  | ok200 (d : StartExamData)
  deriving Repr, DecidableEq

/-- startExam (examController.js lines 722-796): 404 when the exam id
resolves to nothing; 400 when the exam is inactive or past its endTime;
403 when the caller is not enrolled; otherwise answers 200 with the exam
summary, the projected questions, the serving time as startTime, and
alreadyGiven set to whether a Result already exists for this student and
exam. -/
def startExam (exams : List Exam) (results : List ResultRec) (user : User)
    (examId : String) (now : Int) : StartExamResponse :=
  match exams.find? (fun e => e.id == examId) with
  | none => .notFound404
  | some exam =>
    if exam.isActive = false ∨ now > exam.endTime then .notActiveOrEnded400
    else if examId ∉ user.enrolledExams then .notEnrolled403
    else
      let hasCompletedExam :=
        (results.find? (fun r => r.student == user.id &&
          r.exam == examId)).isSome
      .ok200 { examId := exam.id, title := exam.title,
               duration := exam.duration,
               questions := exam.questions.map startExamQuestionPayload,
               startTime := now, totalMarks := exam.totalMarks,
               alreadyGiven := hasCompletedExam }

/-! ## Claim C7 -/

/-- C7 counterexample: an enrolled student starting the active sample
exam receives the projected questions, and the correctAnswer field is
absent from every question payload (the populate projection selects only
text, type, options and marks), contrary to the claim that correctAnswer
is not stripped from the payload at this call site. -/
theorem startExam_correctAnswer_excluded_cex :
    startExam [sampleExam] [] sampleStudent "e1" 5 = .ok200
      { examId := "e1", title := "T", duration := 60,
        questions := [startExamQuestionPayload sampleQ1,
          startExamQuestionPayload sampleQ2,
          startExamQuestionPayload sampleQ3],
        startTime := 5, totalMarks := 10, alreadyGiven := false } ∧
    sampleQ1.correctAnswer = "A" ∧
    (startExamQuestionPayload sampleQ1).lookup "correctAnswer" = none :=
  ⟨by decide, by decide, by decide⟩

/-- C7 (amended): for every startExam call answered 200, alreadyGiven is
true exactly when a Result exists for this student and exam, the payload
carries the projected exam questions, and each question payload contains
the options and marks of the question but no correctAnswer field. -/
theorem startExam_response_spec
    (exams : List Exam) (results : List ResultRec) (user : User)
    (examId : String) (now : Int) (d : StartExamData) (exam : Exam)
    (hfind : exams.find? (fun e => e.id == examId) = some exam)
    (hok : startExam exams results user examId now = .ok200 d) :
    (d.alreadyGiven = true ↔
      ∃ r ∈ results, r.student = user.id ∧ r.exam = examId) ∧
    d.questions = exam.questions.map startExamQuestionPayload ∧
    ∀ q ∈ exam.questions,
      (startExamQuestionPayload q).lookup "options" =
        some (.strList q.options) ∧
      (startExamQuestionPayload q).lookup "marks" = some (.num q.marks) ∧
      (startExamQuestionPayload q).lookup "correctAnswer" = none := by
  simp only [startExam, hfind] at hok
  by_cases hgate : exam.isActive = false ∨ now > exam.endTime
  · rw [if_pos hgate] at hok
    exact absurd hok (by simp)
  · rw [if_neg hgate] at hok
    by_cases henr : examId ∉ user.enrolledExams
    · rw [if_pos henr] at hok
      exact absurd hok (by simp)
    · rw [if_neg henr] at hok
      injection hok with hd
      subst hd
      refine ⟨?_, rfl, ?_⟩
      · simp [List.find?_isSome]
      · intro q hq
        refine ⟨rfl, rfl, rfl⟩

/-- C7 witness: the amended theorem applied to the sample student who
already has a Result for the sample exam. -/
theorem startExam_response_spec_witness :
    [sampleExam].find? (fun e => e.id == "e1") = some sampleExam ∧
    startExam [sampleExam] [sampleResult1] sampleStudent "e1" 5 = .ok200
      { examId := "e1", title := "T", duration := 60,
        questions := [startExamQuestionPayload sampleQ1,
          startExamQuestionPayload sampleQ2,
          startExamQuestionPayload sampleQ3],
        startTime := 5, totalMarks := 10, alreadyGiven := true } ∧
    (((true : Bool) = true ↔
       ∃ r ∈ [sampleResult1], r.student = sampleStudent.id ∧ r.exam = "e1") ∧
     ([startExamQuestionPayload sampleQ1, startExamQuestionPayload sampleQ2,
       startExamQuestionPayload sampleQ3] :
         List (List (String × FieldVal))) =
       sampleExam.questions.map startExamQuestionPayload ∧
     ∀ q ∈ sampleExam.questions,
       (startExamQuestionPayload q).lookup "options" =
         some (.strList q.options) ∧
       (startExamQuestionPayload q).lookup "marks" = some (.num q.marks) ∧
       (startExamQuestionPayload q).lookup "correctAnswer" = none) :=
  ⟨by decide, by decide,
   startExam_response_spec [sampleExam] [sampleResult1] sampleStudent "e1" 5
     { examId := "e1", title := "T", duration := 60,
       questions := [startExamQuestionPayload sampleQ1,
         startExamQuestionPayload sampleQ2,
         startExamQuestionPayload sampleQ3],
       startTime := 5, totalMarks := 10, alreadyGiven := true }
     sampleExam (by decide) (by decide)⟩

/-! ## sendOTP (otpController.js) -/

/-- A persisted OTP record (models/otp schema): email and code. The email
is optional because the controller body can reach the create call with an
undefined email. -/
structure OTPRec where
  email : Option String
  otp : String
  deriving Repr, DecidableEq

/-- Response of the sendOTP handler body. -/
inductive SendOTPResponse where
  | missingEmail400
  | alreadyRegistered401
  | sent200 (otp : String)
  deriving Repr, DecidableEq

/-- The body of the inner handler of sendOTP (otpController.js lines
13-58): 400 when the email is missing (the body lacks a return there and
keeps running, but the 400 already written is the response that stands),
401 when a user with that email is already registered, and otherwise an
OTP record for the email is persisted, the code is mailed, and the
response is 200 with the generated code in its body. `gen` stands for
the numeric code generateOTP produces. -/
def sendOTPBody (users : List User) (otps : List OTPRec)
    (email : Option String) (gen : String) : SendOTPResponse × List OTPRec :=
  match email with
  | none => (.missingEmail400, otps)
  | some e =>
    if (users.find? (fun u => u.email == e)).isSome then
      (.alreadyRegistered401, otps)
    else
      (.sent200 gen, otps ++ [{ email := some e, otp := gen }])

/-- What one invocation of the exported sendOTP handler does. -/
inductive SendOTPCallResult where
  | responded (r : SendOTPResponse) (otps : List OTPRec)
  | returnedInnerHandler
  deriving Repr, DecidableEq

/-- sendOTP as exported (otpController.js line 12) reads
`async (req, res) => async (req, res) =>` followed by the handler body:
the outer arrow function only builds and returns the inner async
function. Invoking the export therefore runs none of the body — no
response is written and no OTP record is created, whatever the input. -/
def sendOTP (_users : List User) (_otps : List OTPRec)
    (_email : Option String) (_gen : String) : SendOTPCallResult :=
  .returnedInnerHandler

/-! ## Claim C8 -/

/-- C8: invoking the exported sendOTP handler on a fresh email returns
the inner function without responding (the double arrow at its definition
makes the body unreachable), although the handler body itself — which
matches the claimed behavior — would have persisted an OTP record and
answered 200 with the generated code. -/
theorem sendOTP_outer_never_responds :
    sendOTP [] [] (some "new@example.com") "123456" =
      .returnedInnerHandler ∧
    sendOTPBody [] [] (some "new@example.com") "123456" =
      (.sent200 "123456", [{ email := some "new@example.com",
                             otp := "123456" }]) :=
  ⟨rfl, by decide⟩

/-! ## addQuestionsToExam permission check (questionController.js) -/

/-- The identity object the auth middleware attaches to a request: the
decoded JWT payload that createAccessToken signed, carrying id, name,
email and role. The `roles` component models the JS property access
`req.user.roles`: the payload has no such field, so the access yields
undefined, modelled as `none`. -/
structure AuthUser where
  id : String
  name : String
  email : String
  role : String
  roles : Option (List String)
  deriving Repr, DecidableEq

/-- The payload createAccessToken builds (utils/jwtUtils.js): id, name,
email, role — and nothing named roles. -/
def jwtPayload (id name email role : String) : AuthUser :=
  { id := id, name := name, email := email, role := role, roles := none }

/-- Outcome of the permission check of addQuestionsToExam. -/
inductive AddQuestionsAuthOutcome where
  | proceed
  | forbidden403
  | serverError500
  deriving Repr, DecidableEq

/-- The permission check of addQuestionsToExam (questionController.js
lines 193-202): the caller proceeds when it is the exam creator (the
conjunction short-circuits); otherwise the code evaluates
`req.user.roles.includes("admin")` — on a payload without a roles field
that access throws a TypeError, which the surrounding catch turns into
the 500 response; with a roles list present, admin membership decides
between proceeding and the written 403 branch. -/
def addQuestionsToExamAuthCheck (exam : Exam) (reqUser : AuthUser) :
    AddQuestionsAuthOutcome :=
  if exam.createdBy ≠ reqUser.id then
    match reqUser.roles with
    | none => .serverError500
    | some rs => if "admin" ∈ rs then .proceed else .forbidden403
  else .proceed

/-! ## Claim C9 -/

/-- C9: on the payload the auth middleware attaches (which has role,
singular, and no roles field), any caller who is not the exam creator —
including a holder of the admin role — makes the permission check throw
and the request answer 500, not 403, and never reach the creation loop;
only the exam creator proceeds. -/
theorem addQuestionsToExam_roles_typeError
    (exam : Exam) (uid name email : String)
    (h : exam.createdBy ≠ uid) :
    addQuestionsToExamAuthCheck exam (jwtPayload uid name email "admin") =
      .serverError500 ∧
    addQuestionsToExamAuthCheck exam
      (jwtPayload exam.createdBy name email "student") = .proceed := by
  constructor
  · simp [addQuestionsToExamAuthCheck, jwtPayload, h]
  · simp [addQuestionsToExamAuthCheck, jwtPayload]

/-- C9 witness: an admin who did not create the sample exam gets the 500
outcome; the creator proceeds. -/
theorem addQuestionsToExam_roles_typeError_witness :
    sampleExam.createdBy ≠ "u2" ∧
    (addQuestionsToExamAuthCheck sampleExam
        (jwtPayload "u2" "N" "n@example.com" "admin") = .serverError500 ∧
     addQuestionsToExamAuthCheck sampleExam
        (jwtPayload sampleExam.createdBy "N" "n@example.com" "student") =
       .proceed) :=
  ⟨by decide,
   addQuestionsToExam_roles_typeError sampleExam "u2" "N" "n@example.com"
     (by decide)⟩

end EduAssess
